import Mathlib

/-!
Verification of the signup-wizard core of `src/script.js`:
the in-memory registered-user directory with its case-insensitive
duplicate-email check, the step wizard navigation (`navigateSignupStep`
driven by the next/prev button handlers), and the final submit handler.

JS strings are embedded as `String`, with `toLowerCase` embedded as the
per-character ASCII lowering `toLowerCase` below; the mutable globals `registeredUsers` and
`currentSignupStep` become explicit state threaded through the handlers.
-/

namespace Signup

/-- A registered user record, as pushed into the `registeredUsers` array:
`{ email, username, password }`. -/
structure Identity where
  email : String
  username : String
  password : String
  deriving DecidableEq, Repr

/-- The pre-seeded mock database `registeredUsers` from the top of
`script.js`. -/
def registeredUsers : List Identity :=
  [ { email := "user@example.com", username := "demo", password := "password123" },
    { email := "test@mail.com", username := "tester", password := "securepass" } ]

/-- JS `String.prototype.toLowerCase`, embedded as per-character ASCII
lowering (a structural `List.map` over the string's characters, so that it
evaluates definitionally). -/
def toLowerCase (s : String) : String := ⟨s.data.map Char.toLower⟩

/-- `isEmailAlreadyRegistered`: `registeredUsers.some(user =>
user.email.toLowerCase() === email.toLowerCase())`, with the directory made
an explicit argument.  A pure query: it returns a boolean and no new
directory. -/
def isEmailAlreadyRegistered (dir : List Identity) (email : String) : Bool :=
  dir.any fun user => toLowerCase user.email == toLowerCase email

/-- The signup wizard's navigation state: the number of steps
(`signupSteps.length`, a fixed DOM node list) and the mutable index
`currentSignupStep`.  The index is embedded as `Int` because the JS
variable is an arbitrary number; nonnegativity is proved, not assumed. -/
structure WizardState where
  numSteps : Nat
  currentStep : Int
  deriving DecidableEq, Repr

/-- `navigateSignupStep(direction)`: computes
`nextStep = currentSignupStep + direction` and moves there only when
`nextStep >= 0 && nextStep < signupSteps.length`.  The returned boolean
records whether the guarded branch was taken (observable in the source as
the `active-step` class moving). -/
def navigateSignupStep (w : WizardState) (direction : Int) : WizardState × Bool :=
  if 0 ≤ w.currentStep + direction ∧ w.currentStep + direction < (w.numSteps : Int) then
    ({ w with currentStep := w.currentStep + direction }, true)
  else
    (w, false)

/-- The whole mutable state the signup handlers touch: the mock database
and the wizard index. -/
structure AppState where
  registeredUsers : List Identity
  wizard : WizardState
  deriving DecidableEq, Repr

/-- The values the user has typed into the signup form's four inputs
(`reg-email`, `reg-username`, `reg-password`, `reg-confirm-password`). -/
structure SignupForm where
  email : String
  username : String
  password : String
  confirmPassword : String
  deriving DecidableEq, Repr

/-- Modelled from the spec: the signup form's markup (an HTML file not in
`src/`) defines which `input[required]` elements each `.form-step`
contains.  Per the spec the wizard has two steps: step 0 holds the
identity fields (email, username) and step 1 the password fields. -/
def stepRequiredInputs (form : SignupForm) : Int → List String
  | 0 => [form.email, form.username]
  | 1 => [form.password, form.confirmPassword]
  | _ => []

/-- The `allValid` loop of the next-step click handler: every required
input of the active step must be non-empty (`!input.value` is the failing
test, i.e. the empty string fails). -/
def validateStep (form : SignupForm) (step : Int) : Bool :=
  (stepRequiredInputs form step).all fun v => v != ""

/-- Outcome labels for the next-step click handler's three exits. -/
inductive AdvanceOutcome where
  | blockedMissingFields
  | blockedDuplicateEmail
  | advanced
  deriving DecidableEq, Repr

/-- Result of a next-step click: the state afterwards, which exit was
taken, and whether `isEmailAlreadyRegistered` was consulted. -/
structure AdvanceResult where
  state : AppState
  outcome : AdvanceOutcome
  directoryQueried : Bool
  deriving DecidableEq, Repr

/-- The `nextStepBtns` click handler: validate the active step's required
inputs; if all valid and on step 0, consult `isEmailAlreadyRegistered` and
stop on a duplicate; otherwise `navigateSignupStep(1)`.  Invalid fields
stop before any directory query. -/
def attemptAdvance (s : AppState) (form : SignupForm) : AdvanceResult :=
  let allValid := validateStep form s.wizard.currentStep
  if allValid then
    if s.wizard.currentStep = 0 then
      if isEmailAlreadyRegistered s.registeredUsers form.email then
        ⟨s, .blockedDuplicateEmail, true⟩
      else
        ⟨{ s with wizard := (navigateSignupStep s.wizard 1).1 }, .advanced, true⟩
    else
      ⟨{ s with wizard := (navigateSignupStep s.wizard 1).1 }, .advanced, false⟩
  else
    ⟨s, .blockedMissingFields, false⟩

/-- The gating pattern of the next-step handler, isolated: navigation runs
only under the guard (`allValid` and the duplicate test), which is fully
evaluated before `navigateSignupStep` mutates anything. -/
def advanceGated (w : WizardState) (isAllowed : Bool) : WizardState × Bool :=
  if isAllowed then navigateSignupStep w 1 else (w, false)

/-- The `prevStepBtns` click handler: `navigateSignupStep(-1)`,
unconditionally.  The form values are in scope in the page but the handler
never reads them. -/
def prevStepClick (s : AppState) (_form : SignupForm) : AppState × Bool :=
  let r := navigateSignupStep s.wizard (-1)
  ({ s with wizard := r.1 }, r.2)

/-- Outcome labels for the submit handler's three exits. -/
inductive SubmitOutcome where
  | passwordMismatch
  | duplicateEmail
  | success
  deriving DecidableEq, Repr

/-- Result of a signup form submission: the state afterwards, which exit
was taken, and whether `isEmailAlreadyRegistered` was consulted. -/
structure SubmitResult where
  state : AppState
  outcome : SubmitOutcome
  directoryQueried : Bool
  deriving DecidableEq, Repr

/-- The `signupForm` submit handler: mismatch of `reg-password` and
`reg-confirm-password` (strict `!==`) stops first; then the duplicate
re-check; then the new user is pushed with the email exactly as entered
and `currentSignupStep` is reset to 0. -/
def submit (s : AppState) (form : SignupForm) : SubmitResult :=
  if form.password ≠ form.confirmPassword then
    ⟨s, .passwordMismatch, false⟩
  else if isEmailAlreadyRegistered s.registeredUsers form.email then
    ⟨s, .duplicateEmail, true⟩
  else
    ⟨{ registeredUsers :=
         s.registeredUsers ++
           [{ email := form.email, username := form.username, password := form.password }],
       wizard := { s.wizard with currentStep := 0 } }, .success, true⟩

/-- The `exists`-then-push sequence of the submit handler restricted to
the directory, i.e. the spec's `UserDirectory.register`: fail when the
email is already present, leaving the directory untouched, otherwise
append. -/
inductive DuplicateEmailError where
  | duplicateEmail
  deriving DecidableEq, Repr

def register (dir : List Identity) (ident : Identity) :
    List Identity × Option DuplicateEmailError :=
  if isEmailAlreadyRegistered dir ident.email then
    (dir, some .duplicateEmail)
  else
    (dir ++ [ident], none)

/-- One user-triggered controller operation. -/
inductive ControllerOp where
  | advanceOp (form : SignupForm)
  | retreatOp (form : SignupForm)
  | submitOp (form : SignupForm)
  deriving DecidableEq, Repr

/-- State transition of a single controller operation. -/
def applyOp (s : AppState) : ControllerOp → AppState
  | .advanceOp form => (attemptAdvance s form).state
  | .retreatOp form => (prevStepClick s form).1
  | .submitOp form => (submit s form).state

/-- Run a sequence of controller operations. -/
def runOps : AppState → List ControllerOp → AppState
  | s, [] => s
  | s, op :: rest => runOps (applyOp s op) rest

/-- The state at page load: the seeded directory, the two-step signup
wizard (step count generalised to `n`), index 0. -/
def initialAppState (numSteps : Nat) : AppState :=
  { registeredUsers := registeredUsers,
    wizard := { numSteps := numSteps, currentStep := 0 } }

/-- No two stored identities share a lowercased email. -/
def emailsDistinct (dir : List Identity) : Prop :=
  dir.Pairwise fun a b => toLowerCase a.email ≠ toLowerCase b.email

instance (dir : List Identity) : Decidable (emailsDistinct dir) := by
  unfold emailsDistinct; infer_instance

/-- The wizard bounds invariant `0 <= activeIndex < length(steps)`. -/
def wizardInv (w : WizardState) : Prop :=
  0 ≤ w.currentStep ∧ w.currentStep < (w.numSteps : Int)

instance (w : WizardState) : Decidable (wizardInv w) := by
  unfold wizardInv; infer_instance

end Signup

namespace Signup

/-! ### Basic lemmas -/

theorem isEmailAlreadyRegistered_iff (dir : List Identity) (email : String) :
    isEmailAlreadyRegistered dir email = true ↔
      ∃ u ∈ dir, toLowerCase u.email = toLowerCase email := by
  simp [isEmailAlreadyRegistered, List.any_eq_true]

theorem isEmailAlreadyRegistered_congr (dir : List Identity) {a b : String}
    (h : toLowerCase a = toLowerCase b) :
    isEmailAlreadyRegistered dir a = isEmailAlreadyRegistered dir b := by
  simp [isEmailAlreadyRegistered, h]

theorem isEmailAlreadyRegistered_append (dir : List Identity) (ident : Identity)
    (email : String) :
    isEmailAlreadyRegistered (dir ++ [ident]) email =
      (isEmailAlreadyRegistered dir email || (toLowerCase ident.email == toLowerCase email)) := by
  simp [isEmailAlreadyRegistered]

theorem emailsDistinct_append (dir : List Identity) (ident : Identity)
    (hdir : emailsDistinct dir)
    (hnew : isEmailAlreadyRegistered dir ident.email = false) :
    emailsDistinct (dir ++ [ident]) := by
  unfold emailsDistinct at *
  rw [List.pairwise_append]
  refine ⟨hdir, List.pairwise_singleton _ _, ?_⟩
  intro a ha b hb
  simp only [List.mem_singleton] at hb
  subst hb
  intro heq
  have hmem : isEmailAlreadyRegistered dir b.email = true := by
    rw [isEmailAlreadyRegistered_iff]
    exact ⟨a, ha, heq⟩
  rw [hnew] at hmem
  exact Bool.false_ne_true hmem

/-- `applyOp` either keeps the directory or appends one fresh identity. -/
theorem applyOp_registeredUsers (s : AppState) (op : ControllerOp)
    (h : emailsDistinct s.registeredUsers) :
    emailsDistinct (applyOp s op).registeredUsers := by
  cases op with
  | advanceOp form =>
      simp only [applyOp, attemptAdvance]
      split
      · split
        · split
          · exact h
          · exact h
        · exact h
      · exact h
  | retreatOp form =>
      simpa [applyOp, prevStepClick] using h
  | submitOp form =>
      simp only [applyOp, submit]
      split
      · exact h
      · split
        · exact h
        · rename_i hne hdup
          exact emailsDistinct_append _ _ h (by simpa using hdup)

end Signup

namespace Signup

/-! ### Wizard bounds lemmas -/

theorem navigateSignupStep_pos (w : WizardState) (d : Int)
    (h : 0 ≤ w.currentStep + d ∧ w.currentStep + d < (w.numSteps : Int)) :
    navigateSignupStep w d = ({ w with currentStep := w.currentStep + d }, true) := by
  unfold navigateSignupStep
  rw [if_pos h]

theorem navigateSignupStep_neg (w : WizardState) (d : Int)
    (h : ¬(0 ≤ w.currentStep + d ∧ w.currentStep + d < (w.numSteps : Int))) :
    navigateSignupStep w d = (w, false) := by
  unfold navigateSignupStep
  rw [if_neg h]

theorem navigateSignupStep_numSteps (w : WizardState) (d : Int) :
    (navigateSignupStep w d).1.numSteps = w.numSteps := by
  unfold navigateSignupStep
  split <;> rfl

theorem navigateSignupStep_inv (w : WizardState) (d : Int) (h : wizardInv w) :
    wizardInv (navigateSignupStep w d).1 := by
  unfold wizardInv navigateSignupStep at *
  split
  · rename_i hg
    exact ⟨hg.1, hg.2⟩
  · exact h

theorem applyOp_wizardInv (s : AppState) (op : ControllerOp)
    (h : wizardInv s.wizard) : wizardInv (applyOp s op).wizard := by
  have hpos : 0 < (s.wizard.numSteps : Int) := lt_of_le_of_lt h.1 h.2
  cases op with
  | advanceOp form =>
      simp only [applyOp, attemptAdvance]
      split
      · split
        · split
          · exact h
          · exact navigateSignupStep_inv _ _ h
        · exact navigateSignupStep_inv _ _ h
      · exact h
  | retreatOp form =>
      simp only [applyOp, prevStepClick]
      exact navigateSignupStep_inv _ _ h
  | submitOp form =>
      simp only [applyOp, submit]
      split
      · exact h
      · split
        · exact h
        · exact ⟨le_refl 0, hpos⟩

theorem runOps_wizardInv (ops : List ControllerOp) (s : AppState)
    (h : wizardInv s.wizard) : wizardInv (runOps s ops).wizard := by
  induction ops generalizing s with
  | nil => simpa [runOps] using h
  | cons op rest ih =>
      rw [runOps]
      exact ih _ (applyOp_wizardInv s op h)

end Signup

namespace Signup

/-! ### Claim theorems -/

/-- C1: if identities `A` and `B` have equal emails up to case, then after
`register A` (whether or not it succeeded), attempting `register B` fails
with `DuplicateEmailError` and leaves the directory exactly as it was
before the second call. -/
theorem register_second_duplicate_fails (dir : List Identity) (A B : Identity)
    (h : toLowerCase A.email = toLowerCase B.email) :
    register (register dir A).1 B = ((register dir A).1, some .duplicateEmail) := by
  have hcongr := isEmailAlreadyRegistered_congr dir h
  by_cases hA : isEmailAlreadyRegistered dir A.email = true
  · have hB : isEmailAlreadyRegistered dir B.email = true := hcongr ▸ hA
    simp [register, hA, hB]
  · have hA' : isEmailAlreadyRegistered dir A.email = false := by
      simpa using hA
    have hB : isEmailAlreadyRegistered (dir ++ [A]) B.email = true := by
      rw [isEmailAlreadyRegistered_append]
      simp [h]
    simp [register, hA', hB]

/-- C1 witness: registering `a@x.com` and then `A@X.com` into the seeded
directory: the second call fails and changes nothing. -/
theorem register_second_duplicate_fails_witness :
    toLowerCase "a@x.com" = toLowerCase "A@X.com" ∧
    register (register registeredUsers ⟨"a@x.com", "u", "p"⟩).1 ⟨"A@X.com", "v", "q"⟩ =
      ((register registeredUsers ⟨"a@x.com", "u", "p"⟩).1, some .duplicateEmail) :=
  ⟨by decide, register_second_duplicate_fails _ _ _ (by decide)⟩

/-- C2: from any state whose directory has pairwise-distinct lowercased
emails (as the pre-seeded one does), every sequence of controller
operations preserves that distinctness. -/
theorem directory_uniqueness_invariant (s : AppState)
    (h : emailsDistinct s.registeredUsers) (ops : List ControllerOp) :
    emailsDistinct (runOps s ops).registeredUsers := by
  induction ops generalizing s with
  | nil => simpa [runOps] using h
  | cons op rest ih =>
      rw [runOps]
      exact ih _ (applyOp_registeredUsers s op h)

/-- C2 witness: the seeded directory is distinct, and stays so across a
concrete advance/retreat/submit sequence. -/
theorem directory_uniqueness_invariant_witness :
    emailsDistinct (initialAppState 2).registeredUsers ∧
    emailsDistinct (runOps (initialAppState 2)
      [ControllerOp.advanceOp ⟨"new@x.com", "n", "", ""⟩,
       ControllerOp.retreatOp ⟨"new@x.com", "n", "", ""⟩,
       ControllerOp.submitOp ⟨"new@x.com", "n", "p", "p"⟩]).registeredUsers :=
  ⟨by decide, directory_uniqueness_invariant _ (by decide) _⟩

/-- C3: `isEmailAlreadyRegistered` returns true exactly when some stored
identity's lowercased email equals the lowercased input.  The query is
side-effect free: in the embedding it consumes the directory and returns
only a boolean. -/
theorem exists_iff_normalized_member (dir : List Identity) (email : String) :
    isEmailAlreadyRegistered dir email = true ↔
      ∃ u ∈ dir, toLowerCase u.email = toLowerCase email :=
  isEmailAlreadyRegistered_iff dir email

/-- C5: the next-step handler's gated navigation with a false guard leaves
the wizard untouched, from every starting index. -/
theorem advanceGated_false_frame (w : WizardState) :
    advanceGated w false = (w, false) := by
  simp [advanceGated]

/-- C8: when the two password fields differ, `submit` exits with
`passwordMismatch` before consulting the directory: the state (directory
and wizard index) is returned unchanged and `directoryQueried` is false,
so no registration can occur. -/
theorem submit_password_mismatch (s : AppState) (form : SignupForm)
    (h : form.password ≠ form.confirmPassword) :
    submit s form = ⟨s, .passwordMismatch, false⟩ := by
  simp [submit, h]

/-- C8 witness: scenario 4, `password:"abc"`, `confirmPassword:"xyz"` at
step 1. -/
theorem submit_password_mismatch_witness :
    submit { registeredUsers := registeredUsers, wizard := ⟨2, 1⟩ }
        ⟨"new@x.com", "n", "abc", "xyz"⟩ =
      ⟨{ registeredUsers := registeredUsers, wizard := ⟨2, 1⟩ },
        .passwordMismatch, false⟩ :=
  submit_password_mismatch _ _ (by decide)

/-- C9: with matching passwords and an unregistered email, `submit`
appends exactly one identity built from the form (email in its original
case), resets the wizard index to step 0, and reports success. -/
theorem submit_success_registers (s : AppState) (form : SignupForm)
    (hpw : form.password = form.confirmPassword)
    (hdup : isEmailAlreadyRegistered s.registeredUsers form.email = false) :
    submit s form =
      ⟨{ registeredUsers := s.registeredUsers ++
           [{ email := form.email, username := form.username, password := form.password }],
         wizard := { s.wizard with currentStep := 0 } }, .success, true⟩ := by
  simp [submit, hpw, hdup]

/-- C9 witness: scenario 5, submitting `NEW@x.com` with matching passwords
at step 1 appends the identity with the email exactly as typed and returns
to step 0. -/
theorem submit_success_registers_witness :
    submit { registeredUsers := registeredUsers, wizard := ⟨2, 1⟩ }
        ⟨"NEW@x.com", "n", "p", "p"⟩ =
      ⟨{ registeredUsers := registeredUsers ++ [⟨"NEW@x.com", "n", "p"⟩],
         wizard := ⟨2, 0⟩ }, .success, true⟩ :=
  submit_success_registers _ _ (by decide) (by decide)

/-- C10: `submit` never checks fields for emptiness: if both password
fields are the empty string and the email is unregistered, submission
succeeds and an identity whose fields may all be empty is appended. -/
theorem submit_skips_required_validation (s : AppState) (form : SignupForm)
    (hp : form.password = "") (hc : form.confirmPassword = "")
    (hdup : isEmailAlreadyRegistered s.registeredUsers form.email = false) :
    (submit s form).outcome = .success ∧
    (submit s form).state.registeredUsers =
      s.registeredUsers ++
        [{ email := form.email, username := form.username, password := "" }] := by
  simp [submit, hp, hc, hdup]

/-- C10 witness: submitting the completely empty form against the seeded
directory registers the all-empty identity. -/
theorem submit_skips_required_validation_witness :
    (submit (initialAppState 2) ⟨"", "", "", ""⟩).outcome = .success ∧
    (submit (initialAppState 2) ⟨"", "", "", ""⟩).state.registeredUsers =
      registeredUsers ++ [⟨"", "", ""⟩] :=
  submit_skips_required_validation _ _ (by decide) (by decide) (by decide)

end Signup

namespace Signup

/-- C4: the next-step click handler's three-case ordering.  Missing fields
block first, with no state change and no directory query; a duplicate
email on step 0 blocks next, with no state change; otherwise (from a
bounds-respecting index with a successor step) the wizard advances exactly
one step with the directory untouched. -/
theorem attemptAdvance_three_case_ordering (s : AppState) (form : SignupForm) :
    (validateStep form s.wizard.currentStep = false →
        attemptAdvance s form = ⟨s, .blockedMissingFields, false⟩) ∧
    (validateStep form s.wizard.currentStep = true →
        s.wizard.currentStep = 0 →
        isEmailAlreadyRegistered s.registeredUsers form.email = true →
        attemptAdvance s form = ⟨s, .blockedDuplicateEmail, true⟩) ∧
    (validateStep form s.wizard.currentStep = true →
        (s.wizard.currentStep = 0 →
          isEmailAlreadyRegistered s.registeredUsers form.email = false) →
        0 ≤ s.wizard.currentStep →
        s.wizard.currentStep + 1 < (s.wizard.numSteps : Int) →
        (attemptAdvance s form).outcome = .advanced ∧
        (attemptAdvance s form).state.registeredUsers = s.registeredUsers ∧
        (attemptAdvance s form).state.wizard.currentStep = s.wizard.currentStep + 1 ∧
        (attemptAdvance s form).state.wizard.numSteps = s.wizard.numSteps) := by
  refine ⟨?_, ?_, ?_⟩
  · intro hval
    simp [attemptAdvance, hval]
  · intro hval h0 hdup
    have hval0 : validateStep form 0 = true := h0 ▸ hval
    simp [attemptAdvance, hval0, h0, hdup]
  · intro hval hdup hlo hhi
    have hnav := navigateSignupStep_pos s.wizard 1 ⟨by omega, hhi⟩
    by_cases h0 : s.wizard.currentStep = 0
    · have hval0 : validateStep form 0 = true := h0 ▸ hval
      simp [attemptAdvance, hval0, h0, hdup h0, hnav]
    · simp [attemptAdvance, hval, h0, hnav]

/-- C4 witness: at the seeded two-step wizard on step 0 — an empty email
blocks with missing fields, `USER@EXAMPLE.COM` blocks as a duplicate, and
`new@x.com` advances. -/
theorem attemptAdvance_three_case_ordering_witness :
    attemptAdvance (initialAppState 2) ⟨"", "x", "p", "p"⟩ =
      ⟨initialAppState 2, .blockedMissingFields, false⟩ ∧
    attemptAdvance (initialAppState 2) ⟨"USER@EXAMPLE.COM", "x", "p", "p"⟩ =
      ⟨initialAppState 2, .blockedDuplicateEmail, true⟩ ∧
    (attemptAdvance (initialAppState 2) ⟨"new@x.com", "x", "p", "p"⟩).outcome =
      .advanced :=
  ⟨(attemptAdvance_three_case_ordering (initialAppState 2) _).1 (by decide),
   (attemptAdvance_three_case_ordering (initialAppState 2) _).2.1
     (by decide) (by decide) (by decide),
   ((attemptAdvance_three_case_ordering (initialAppState 2) _).2.2
     (by decide) (fun _ => by decide) (by decide) (by decide)).1⟩

/-- C6: the prev-step click handler retreats exactly one step and reports
a move whenever the index is positive (under the bounds invariant), and at
index 0 it is a no-op reporting no move; it reads no form fields, so the
result is the same for every form contents. -/
theorem prevStepClick_retreat (s : AppState) (form : SignupForm)
    (_hlo : 0 ≤ s.wizard.currentStep)
    (hhi : s.wizard.currentStep < (s.wizard.numSteps : Int)) :
    (1 ≤ s.wizard.currentStep →
        prevStepClick s form =
          ({ s with wizard := { s.wizard with
               currentStep := s.wizard.currentStep - 1 } }, true)) ∧
    (s.wizard.currentStep = 0 → prevStepClick s form = (s, false)) := by
  constructor
  · intro h1
    have hguard : 0 ≤ s.wizard.currentStep + -1 ∧
        s.wizard.currentStep + -1 < (s.wizard.numSteps : Int) := by
      constructor <;> omega
    rw [prevStepClick, navigateSignupStep_pos _ _ hguard]
    simp
    omega
  · intro h0
    have hguard : ¬(0 ≤ s.wizard.currentStep + -1 ∧
        s.wizard.currentStep + -1 < (s.wizard.numSteps : Int)) := by
      omega
    rw [prevStepClick, navigateSignupStep_neg _ _ hguard]

/-- C6 witness: retreating from step 1 of the two-step wizard reaches
step 0, and retreating again (even with the form completely empty) is a
no-op. -/
theorem prevStepClick_retreat_witness :
    prevStepClick { registeredUsers := registeredUsers, wizard := ⟨2, 1⟩ }
        ⟨"", "", "", ""⟩ =
      ({ registeredUsers := registeredUsers, wizard := ⟨2, 0⟩ }, true) ∧
    prevStepClick { registeredUsers := registeredUsers, wizard := ⟨2, 0⟩ }
        ⟨"", "", "", ""⟩ =
      ({ registeredUsers := registeredUsers, wizard := ⟨2, 0⟩ }, false) :=
  ⟨(prevStepClick_retreat _ _ (by decide) (by decide)).1 (by decide),
   (prevStepClick_retreat _ _ (by decide) (by decide)).2 (by decide)⟩

/-- C7: for every nonempty step list, starting at index 0, every sequence
of controller operations (next-step clicks, prev-step clicks, submissions)
keeps `0 <= currentStep < numSteps`. -/
theorem wizard_bounds_invariant (n : Nat) (hn : 0 < n)
    (ops : List ControllerOp) :
    wizardInv (runOps (initialAppState n) ops).wizard :=
  runOps_wizardInv ops _ (by simp [wizardInv, initialAppState]; exact_mod_cast hn)

/-- C7 witness: a concrete advance/submit/retreat sequence on the two-step
wizard stays in bounds. -/
theorem wizard_bounds_invariant_witness :
    wizardInv (runOps (initialAppState 2)
      [ControllerOp.advanceOp ⟨"new@x.com", "n", "", ""⟩,
       ControllerOp.submitOp ⟨"new@x.com", "n", "p", "p"⟩,
       ControllerOp.retreatOp ⟨"", "", "", ""⟩]).wizard :=
  wizard_bounds_invariant 2 (by decide) _

end Signup
